import Mathlib

/-!
Verification of the NYC WiFi Hotspots dashboard (src/app.py) against its
natural-language specification.

The script is a single-file Streamlit app.  We shallowly embed the pieces the
claims are about:

* the hotspot data model (one row of the CSV after loading),
* the load-and-clean phase (dropna on coordinates, then numeric coercion),
* the search filter over the displayed columns,
* the routing client `get_directions_osrm` / `get_directions_ors` and the
  caller that draws the polyline,
* the marker colouring of the map renderer,
* the session-state mutations performed by the clear / refresh / location /
  directions buttons and by map clicks,
* the borough aggregation (`value_counts` plus the code-to-name table),
* the sampling calls (`df.sample(n=200)`).

Coordinates and the duration/distance numbers are embedded as rationals
(the source uses Python floats; no claim depends on rounding), CSV numeric
literals as integers.  The search matcher models the regex-based
`str.contains` of pandas (literal characters plus the `.` wildcard), and the
load-time sort is modelled by its contract — some permutation ordered by
postcode — because the default quicksort of `sort_values` does not fix the
order of tied rows.
-/

namespace NycWifi

/-- One hotspot row after loading, restricted to the columns the app touches:
the nine displayed columns of `columns_to_show` (src/app.py lines 110-120, all
held as strings), the numeric `Latitude`/`Longitude` used by the map and the
selection filter, and `BoroCode` used by the borough aggregation.  `BoroCode`
is `Option`al because nothing in the load phase guarantees that cell is
present in the CSV (only the coordinate columns are cleaned). -/
structure Record where
  provider : String
  name : String
  location : String
  location_T : String
  ssid : String
  boroughName : String
  nta : String
  postcode : String
  locationLatLong : String
  latitude : ℚ
  longitude : ℚ
  boroCode : Option Int
deriving DecidableEq, Repr

/-- The displayed columns (`columns_to_show`, src/app.py lines 110-120). -/
inductive Column where
  | provider
  | name
  | location
  | location_T
  | ssid
  | boroughName
  | nta
  | postcode
  | locationLatLong
deriving DecidableEq, Repr

/-- Reading one displayed column of a row (already a string in the model;
the source casts with `astype(str)` before matching). -/
def Column.get (c : Column) (r : Record) : String :=
  match c with
  | .provider => r.provider
  | .name => r.name
  | .location => r.location
  | .location_T => r.location_T
  | .ssid => r.ssid
  | .boroughName => r.boroughName
  | .nta => r.nta
  | .postcode => r.postcode
  | .locationLatLong => r.locationLatLong

/-- `columns_to_show` (src/app.py lines 110-120): the fixed set of columns
displayed in the table and searched when the dropdown says "All". -/
def columns_to_show : List Column :=
  [.provider, .name, .location, .location_T, .ssid, .boroughName, .nta,
   .postcode, .locationLatLong]

/-- Lower-cased character sequence of a string. -/
def lowerList (s : String) : List Char := s.toList.map Char.toLower

/-- Whether `needle` occurs as a contiguous run inside the second list. -/
def containsAux (needle : List Char) : List Char → Bool
  | [] => needle.isEmpty
  | c :: t => needle.isPrefixOf (c :: t) || containsAux needle t

/-- Literal case-insensitive containment: the matching notion the
specification words use ("contains the query case-insensitively").  The
program itself matches with `Series.str.contains(search, case=False)`, which
interprets the query as a regular expression (`str_contains` below); the two
coincide exactly on queries free of regular-expression metacharacters
(`str_contains_eq_containsCI`). -/
def containsCI (haystack query : String) : Bool :=
  containsAux (lowerList query) (lowerList haystack)

/-- One step of the regular-expression engine: does the pattern match a
prefix of the text?  A literal pattern character matches case-insensitively
(`re.IGNORECASE`, from `case=False`); the metacharacter `.` matches any
character. -/
def re_match_here : List Char → List Char → Bool
  | [], _ => true
  | _ :: _, [] => false
  | c :: ps, d :: ts => (c == '.' || c.toLower == d.toLower) && re_match_here ps ts

/-- `re.search`: the pattern may match at any position of the text. -/
def re_searchAux (p : List Char) : List Char → Bool
  | [] => re_match_here p []
  | d :: ts => re_match_here p (d :: ts) || re_searchAux p ts

/-- The model of `Series.str.contains(search, case=False)` on one cell
(src/app.py lines 271 and 275): pandas keeps the default `regex=True`, so
the query is compiled as a regular expression and searched case-insensitively.
The engine here covers patterns built from literal characters and the `.`
wildcard; every theorem below either evaluates it at a concrete query or
hypothesises a metacharacter-free query (`regex_free`), on which it coincides
with literal containment.  (A query that is an invalid pattern raises in the
source; such queries satisfy `regex_free` of no theorem here.) -/
def str_contains (haystack query : String) : Bool :=
  re_searchAux query.toList haystack.toList

/-- The metacharacters of Python regular expressions. -/
def regex_metachars : List Char :=
  ['.', '^', '$', '*', '+', '?', '[', ']', '\\', '|', '(', ')',
   Char.ofNat 123, Char.ofNat 125]

/-- Whether a query contains no regular-expression metacharacter, i.e. is
matched literally by `str.contains`. -/
def regex_free (q : String) : Bool :=
  q.toList.all (fun c => !(regex_metachars.contains c))

/-- On a dot-free pattern the engine's one-position match is a literal
case-insensitive prefix test. -/
theorem re_match_here_eq (p : List Char) (hp : ∀ c ∈ p, (c == '.') = false) :
    ∀ t : List Char,
      re_match_here p t = (p.map Char.toLower).isPrefixOf (t.map Char.toLower) := by
  induction p with
  | nil =>
      intro t
      cases t <;> simp [re_match_here, List.isPrefixOf]
  | cons c ps ih =>
      intro t
      cases t with
      | nil => simp [re_match_here, List.isPrefixOf]
      | cons d ts =>
          have hc := hp c (List.mem_cons_self c ps)
          have ihs := ih (fun x hx => hp x (List.mem_cons_of_mem c hx)) ts
          simp [re_match_here, List.isPrefixOf, hc, ihs]

/-- On a dot-free pattern the engine's search is literal case-insensitive
containment. -/
theorem re_searchAux_eq (p : List Char) (hp : ∀ c ∈ p, (c == '.') = false) :
    ∀ t : List Char,
      re_searchAux p t = containsAux (p.map Char.toLower) (t.map Char.toLower) := by
  intro t
  induction t with
  | nil =>
      rw [re_searchAux, re_match_here_eq p hp]
      cases p <;> simp [containsAux, List.isPrefixOf]
  | cons d ts ih =>
      simp [re_searchAux, containsAux, re_match_here_eq p hp, ih]

/-- On a metacharacter-free query the program's matcher is exactly literal
case-insensitive containment. -/
theorem str_contains_eq_containsCI (s q : String) (hfree : regex_free q = true) :
    str_contains s q = containsCI s q := by
  have hdot : ∀ c ∈ q.toList, (c == '.') = false := by
    intro c hc
    have hall := List.all_eq_true.mp hfree c hc
    rw [beq_eq_false_iff_ne]
    intro h
    subst h
    simp [regex_metachars] at hall
  exact re_searchAux_eq q.toList hdot s.toList

/-- A `{"lat": .., "lon": ..}` coordinate dictionary, used both for the
map-click selection (`st.session_state.selected_hotspot`) and for the user
location (`st.session_state.user_location`). -/
structure LatLon where
  lat : ℚ
  lon : ℚ
deriving DecidableEq, Repr

/-- The column dropdown: `"All"` or one original column name
(src/app.py lines 216-228). -/
inductive SearchColumn where
  | all
  | col (c : Column)
deriving DecidableEq, Repr

/-- The `filtered_df` computation (src/app.py lines 268-285):
if the search string is non-empty, filter by `str.contains` matching over
all displayed columns ("All") or over the selected column; otherwise, if a
hotspot was selected by a map click, keep only the rows at exactly its
coordinates; otherwise return the whole record set. -/
def filtered_df (rs : List Record) (search : String)
    (selected_hotspot : Option LatLon) (selected_column : SearchColumn) :
    List Record :=
  if search ≠ "" then
    match selected_column with
    | .all =>
        rs.filter (fun r => columns_to_show.any (fun c => str_contains (c.get r) search))
    | .col c =>
        rs.filter (fun r => str_contains (c.get r) search)
  else
    match selected_hotspot with
    | some s =>
        rs.filter (fun r => decide (r.latitude = s.lat ∧ r.longitude = s.lon))
    | none => rs

/-- A concrete hotspot row used to instantiate theorems on concrete inputs. -/
def sampleRecord : Record :=
  { provider := "LinkNYC"
    name := "mn-05-123662"
    location := "179 WEST 26 STREET"
    location_T := "Outdoor Kiosk"
    ssid := "LinkNYC Free Wi-Fi"
    boroughName := "Manhattan"
    nta := "Chelsea"
    postcode := "10001"
    locationLatLong := "(40.745, -73.994)"
    latitude := 40
    longitude := -74
    boroCode := some 1 }

/-- A second concrete hotspot row with different coordinates and fields. -/
def sampleRecordB : Record :=
  { provider := "Spectrum"
    name := "bk-01-000013"
    location := "16 COURT STREET"
    location_T := "Library"
    ssid := "GuestWiFi"
    boroughName := "Brooklyn"
    nta := "Downtown Brooklyn"
    postcode := "11241"
    locationLatLong := "(40.692, -73.990)"
    latitude := 41
    longitude := -73
    boroCode := some 3 }

/-- C1 fails on the code: `str.contains` keeps its `regex=True` default, so
the query "." — reachable from the suggestion list, which offers raw cell
values — matches every record on the Postcode column, although no postcode
literally contains a period. -/
theorem filter_membership_counterexample :
    sampleRecord ∈ filtered_df [sampleRecord] "." none (.col .postcode)
    ∧ containsCI (Column.postcode.get sampleRecord) "." = false := by
  constructor
  · decide
  · decide

/-- C1 amended: for a non-empty query free of regular-expression
metacharacters, "All" keeps a record iff some displayed column contains the
query case-insensitively; a specific column keeps a record iff that column
contains the query case-insensitively, so a record whose only matching
field lies in a different column is excluded.  (For metacharacter queries
the program matches by regular expression instead.) -/
theorem filter_membership (rs : List Record) (q : String)
    (sel : Option LatLon) (hq : q ≠ "") (hfree : regex_free q = true)
    (r : Record) :
    (r ∈ filtered_df rs q sel .all ↔
      r ∈ rs ∧ columns_to_show.any (fun c => containsCI (c.get r) q) = true)
    ∧ (∀ c : Column,
        (r ∈ filtered_df rs q sel (.col c) ↔
          r ∈ rs ∧ containsCI (c.get r) q = true))
    ∧ (∀ c : Column, containsCI (c.get r) q = false →
        r ∉ filtered_df rs q sel (.col c)) := by
  have heq : ∀ s : String, str_contains s q = containsCI s q :=
    fun s => str_contains_eq_containsCI s q hfree
  have hCol : ∀ c : Column,
      r ∈ filtered_df rs q sel (.col c) ↔
        r ∈ rs ∧ containsCI (c.get r) q = true := by
    intro c
    simp [filtered_df, hq, List.mem_filter, heq]
  refine ⟨?_, hCol, ?_⟩
  · simp [filtered_df, hq, List.mem_filter, heq]
  · intro c hc hmem
    have := ((hCol c).mp hmem).2
    rw [hc] at this
    exact Bool.false_ne_true this

/-- The C1 theorem applied at a concrete record set and query. -/
theorem filter_membership_witness :
    sampleRecord ∈ filtered_df [sampleRecord, sampleRecordB] "link" none .all
    ∧ sampleRecord ∉
        filtered_df [sampleRecord, sampleRecordB] "link" none (.col .postcode) := by
  constructor
  · exact (filter_membership [sampleRecord, sampleRecordB] "link" none
      (by decide) (by decide) sampleRecord).1.mpr ⟨by simp, by decide⟩
  · exact (filter_membership [sampleRecord, sampleRecordB] "link" none
      (by decide) (by decide) sampleRecord).2.2 .postcode (by decide)

/-- C2 fails on the code: with an empty query but a map-click selection in
session state, `filtered_df` keeps only the rows at the selected coordinates,
not the whole record set (src/app.py lines 277-283). -/
theorem filter_empty_query_counterexample :
    filtered_df [sampleRecord, sampleRecordB] "" (some ⟨40, -74⟩) .all
      = [sampleRecord]
    ∧ filtered_df [sampleRecord, sampleRecordB] "" (some ⟨40, -74⟩) .all
      ≠ [sampleRecord, sampleRecordB] := by
  constructor
  · decide
  · decide

/-- C2 amended: with an empty query and no map-click selection the filter
returns all records unfiltered; with an empty query and a selection present
it returns exactly the records whose coordinates equal the selection. -/
theorem filter_empty_query (rs : List Record) (col : SearchColumn)
    (s : LatLon) (r : Record) :
    filtered_df rs "" none col = rs
    ∧ (r ∈ filtered_df rs "" (some s) col ↔
        r ∈ rs ∧ r.latitude = s.lat ∧ r.longitude = s.lon) := by
  constructor
  · simp [filtered_df]
  · simp [filtered_df, List.mem_filter, and_assoc]

/-- One raw CSV row before cleaning, restricted to the cells the load phase
inspects: the `Latitude` and `Longitude` cells (absent cell = `none`,
modelling a NaN produced by `read_csv`), plus the SSID as a representative
payload column. -/
structure RawRow where
  ssid : String
  latitude : Option String
  longitude : Option String
deriving DecidableEq, Repr

/-- A row after the clean phase: the coordinate columns have been coerced
with `pd.to_numeric(errors="coerce")`, so each is either a number or a
NaN (`none`). -/
structure LoadedRow where
  ssid : String
  latitude : Option Int
  longitude : Option Int
deriving DecidableEq, Repr

/-- Numeric value of a digit sequence. -/
def digitsToNat (ds : List Char) : Nat :=
  ds.foldl (fun n c => 10 * n + (c.toNat - 48)) 0

/-- `pd.to_numeric(cell, errors="coerce")` on one string cell, with numeric
literals modelled as (possibly negated) integers: an unparseable string
becomes NaN (`none`). -/
def to_numeric (s : String) : Option Int :=
  match s.toList with
  | [] => none
  | '-' :: ds =>
      if ds.isEmpty then none
      else if ds.all Char.isDigit then some (-(digitsToNat ds : Int)) else none
  | ds => if ds.all Char.isDigit then some (digitsToNat ds) else none

/-- `df.dropna(subset=["Latitude", "Longitude"])` (src/app.py line 101):
drop the rows with a missing coordinate cell. -/
def dropna_latlon (rows : List RawRow) : List RawRow :=
  rows.filter (fun r => r.latitude.isSome && r.longitude.isSome)

/-- Numeric coercion of the two coordinate cells of one retained row
(src/app.py lines 104-105). -/
def coerceRow (r : RawRow) : LoadedRow :=
  ⟨r.ssid, r.latitude.bind to_numeric, r.longitude.bind to_numeric⟩

/-- The whole load-and-clean phase (src/app.py lines 100-105): first the
dropna on the coordinate columns, then the numeric coercion. -/
def load_clean (rows : List RawRow) : List LoadedRow :=
  (dropna_latlon rows).map coerceRow

/-- C3 fails on the code: the dropna runs before the numeric coercion, so a
row whose latitude cell holds the unparseable string "abc" is retained, and
after coercion its latitude is NaN (`none`) — the cleaned record set does not
satisfy "every retained row has non-null numeric coordinates". -/
theorem load_clean_counterexample :
    load_clean [⟨"LinkNYC Free Wi-Fi", some "abc", some "1"⟩]
      = [⟨"LinkNYC Free Wi-Fi", none, some 1⟩]
    ∧ ((load_clean [⟨"LinkNYC Free Wi-Fi", some "abc", some "1"⟩]).all
        (fun r => r.latitude.isSome && r.longitude.isSome)) = false := by
  constructor
  · decide
  · decide

/-- C3 amended: the load phase discards exactly the rows with a missing
(null) coordinate cell; every row whose coordinate cells are both present is
retained — even when a cell is unparseable, in which case the coerced value
is null.  A cleaned row is a coercion of a retained raw row, and the number
of retained rows is the number of raw rows with both coordinate cells
present. -/
theorem load_clean_spec (rows : List RawRow) (c : LoadedRow) (r : RawRow) :
    (c ∈ load_clean rows ↔
      ∃ a, a ∈ rows ∧ (a.latitude.isSome && a.longitude.isSome) = true
        ∧ coerceRow a = c)
    ∧ (load_clean rows).length
        = rows.countP (fun a => a.latitude.isSome && a.longitude.isSome)
    ∧ (r ∈ rows → (r.latitude.isSome && r.longitude.isSome) = true →
        coerceRow r ∈ load_clean rows) := by
  refine ⟨?_, ?_, ?_⟩
  · simp only [load_clean, dropna_latlon, List.mem_map, List.mem_filter,
      Bool.and_eq_true, and_assoc]
  · simp [load_clean, dropna_latlon, List.countP_eq_length_filter]
  · intro hr hsome
    simp only [load_clean, dropna_latlon, List.mem_map]
    exact ⟨r, List.mem_filter.mpr ⟨hr, hsome⟩, rfl⟩

/-- The C3 amended theorem applied to a concrete row whose latitude parses
and a concrete row set. -/
theorem load_clean_spec_witness :
    coerceRow ⟨"GuestWiFi", some "40", some "-74"⟩
      ∈ load_clean [⟨"GuestWiFi", some "40", some "-74"⟩] :=
  (load_clean_spec [⟨"GuestWiFi", some "40", some "-74"⟩]
      ⟨"GuestWiFi", some 40, some (-74)⟩
      ⟨"GuestWiFi", some "40", some "-74"⟩).2.2 (by decide) (by decide)

/-- The GeoJSON-ish body of one route returned by the directions service:
`geometry` models `routes[i]["geometry"]["coordinates"]`, a list of
(longitude, latitude) pairs (`none` models a route object missing that field,
whose subscripting raises); `duration` and `distance` model the optional
fields read with `.get(..., 0)`. -/
structure OsrmRoute where
  geometry : Option (List (ℚ × ℚ))
  duration : Option ℚ
  distance : Option ℚ
deriving DecidableEq, Repr

/-- A parsed OSRM response body: `routes = none` models a JSON object with no
"routes" key. -/
structure OsrmBody where
  routes : Option (List OsrmRoute)
deriving DecidableEq, Repr

/-- The outcome of the one HTTP request `requests.get(url, params)`:
either the request itself raised (network error), or a response with a
status code and a body that `response.json()` either parses (`Except.ok`)
or fails to parse (`Except.error`, its exception caught by the handler). -/
inductive HttpOutcome where
  | exn
  | resp (status : Nat) (body : Except Unit OsrmBody)
deriving Repr

/-- The value `get_directions_osrm` hands back to its caller: the successful
3-tuple, the explicit failure tuple `(None, None, None)`, or the bare `None`
of the implicit fallthrough return. -/
inductive OsrmReturn where
  | route (coords : List (ℚ × ℚ)) (duration distance : ℚ)
  | noneTriple
  | pyNone
deriving DecidableEq, Repr

/-- Decoding of the returned polyline (src/app.py line 200):
`[[coord[1], coord[0]] for coord in coordinates]`, swapping every
(longitude, latitude) pair into (latitude, longitude). -/
def decode_route (coordinates : List (ℚ × ℚ)) : List (ℚ × ℚ) :=
  coordinates.map (fun coord => (coord.2, coord.1))

/-- `get_directions_osrm` (src/app.py lines 181-212), as a function of the
HTTP outcome.  The boolean records whether `st.error` was called.  A 200
response whose body parses but has no non-empty "routes" list falls off the
end of the `if` and returns the bare `None` with no message; a missing
geometry field raises inside the `try` and is caught by the handler. -/
def get_directions_osrm (o : HttpOutcome) : OsrmReturn × Bool :=
  match o with
  | .exn => (.noneTriple, true)
  | .resp status body =>
    if status = 200 then
      match body with
      | .error _ => (.noneTriple, true)
      | .ok data =>
        match data.routes with
        | some (route0 :: _) =>
          match route0.geometry with
          | some coordinates =>
              (.route (decode_route coordinates)
                (route0.duration.getD 0) (route0.distance.getD 0), false)
          | none => (.noneTriple, true)
        | some [] => (.pyNone, false)
        | none => (.pyNone, false)
    else
      (.noneTriple, true)

/-- What the caller in the map column does with the returned value
(src/app.py lines 551-564): it unpacks it as a 3-tuple — which raises on a
bare `None` — and draws the polyline only when the coordinate list is
truthy (non-`None` and non-empty). -/
inductive CallerOutcome where
  | crashed
  | rendered (polyline : Option (List (ℚ × ℚ)))
deriving DecidableEq, Repr

/-- The caller's unpacking and rendering of the routing result
(src/app.py lines 552-564). -/
def draw_directions (ret : OsrmReturn) : CallerOutcome :=
  match ret with
  | .pyNone => .crashed
  | .noneTriple => .rendered none
  | .route coords _ _ => .rendered (if coords.isEmpty then none else some coords)

/-- C4 fails on the code: a 200 response whose parsed body lacks the
"routes" field makes `get_directions_osrm` return the bare `None` with no
message shown, and the caller's 3-tuple unpacking of that value raises
instead of rendering anything. -/
theorem osrm_malformed_counterexample :
    get_directions_osrm (.resp 200 (.ok ⟨none⟩)) = (.pyNone, false)
    ∧ draw_directions (get_directions_osrm (.resp 200 (.ok ⟨none⟩))).1
        = .crashed := by
  constructor
  · decide
  · decide

/-- C4 amended: a raised request, a non-success status, an unparseable body,
and a missing geometry field all yield the `(None, None, None)` failure
triple with a message shown and no route drawn; but a 200 response whose
parsed body lacks a non-empty "routes" list yields the bare `None` without a
message, and the caller crashes unpacking it. -/
theorem osrm_failure_handling (status : Nat) (body : Except Unit OsrmBody)
    (data : OsrmBody) (route0 : OsrmRoute) (rest : List OsrmRoute) :
    (get_directions_osrm .exn = (.noneTriple, true)
      ∧ draw_directions .noneTriple = .rendered none)
    ∧ (status ≠ 200 → get_directions_osrm (.resp status body) = (.noneTriple, true))
    ∧ get_directions_osrm (.resp 200 (.error ())) = (.noneTriple, true)
    ∧ (route0.geometry = none →
        get_directions_osrm (.resp 200 (.ok ⟨some (route0 :: rest)⟩))
          = (.noneTriple, true))
    ∧ ((data.routes = none ∨ data.routes = some []) →
        get_directions_osrm (.resp 200 (.ok data)) = (.pyNone, false)
        ∧ draw_directions (get_directions_osrm (.resp 200 (.ok data))).1
            = .crashed) := by
  refine ⟨⟨rfl, rfl⟩, ?_, rfl, ?_, ?_⟩
  · intro hs
    simp [get_directions_osrm, hs]
  · intro hg
    simp [get_directions_osrm, hg]
  · rintro (hr | hr) <;>
      · obtain ⟨routes⟩ := data
        simp only [OsrmBody.mk.injEq] at hr
        subst hr
        exact ⟨rfl, rfl⟩

/-- The C4 amended theorem applied at a 404 status and at a body with an
empty "routes" list. -/
theorem osrm_failure_handling_witness :
    get_directions_osrm (.resp 404 (.ok ⟨none⟩)) = (.noneTriple, true)
    ∧ get_directions_osrm (.resp 200 (.ok ⟨some []⟩)) = (.pyNone, false) := by
  constructor
  · exact (osrm_failure_handling 404 (.ok ⟨none⟩) ⟨none⟩
      ⟨none, none, none⟩ []).2.1 (by decide)
  · exact ((osrm_failure_handling 200 (.ok ⟨some []⟩) ⟨some []⟩
      ⟨none, none, none⟩ []).2.2.2.2 (Or.inr rfl)).1

/-- The coordinate pairs as placed in the OSRM request URL path
(src/app.py line 188): the path segment is
`.../foot/start_lon,start_lat;end_lon,end_lat`, so the external service
receives (longitude, latitude) pairs. -/
def osrm_request_coords (start_lat start_lon end_lat end_lon : ℚ) :
    List (ℚ × ℚ) :=
  [(start_lon, start_lat), (end_lon, end_lat)]

/-- The `coordinates` field of the OpenRouteService request body
(src/app.py line 158): `[[start_lon, start_lat], [end_lon, end_lat]]`. -/
def ors_request_coordinates (start_lat start_lon end_lat end_lon : ℚ) :
    List (ℚ × ℚ) :=
  [(start_lon, start_lat), (end_lon, end_lat)]

/-- C5: both routing clients send the external service the (lon, lat) swap
of the internal (lat, lon) endpoints, the polyline decoder swaps every
returned pair back to (lat, lon), and decoding a request's own coordinate
list recovers the internal endpoint pairs. -/
theorem route_coord_order (start_lat start_lon end_lat end_lon : ℚ)
    (coordinates : List (ℚ × ℚ)) :
    osrm_request_coords start_lat start_lon end_lat end_lon
      = [(start_lat, start_lon), (end_lat, end_lon)].map Prod.swap
    ∧ ors_request_coordinates start_lat start_lon end_lat end_lon
      = [(start_lat, start_lon), (end_lat, end_lon)].map Prod.swap
    ∧ decode_route coordinates = coordinates.map Prod.swap
    ∧ decode_route (osrm_request_coords start_lat start_lon end_lat end_lon)
      = [(start_lat, start_lon), (end_lat, end_lon)] := by
  refine ⟨rfl, rfl, ?_, rfl⟩
  simp [decode_route, Prod.swap]

/-- Folium marker colours used by the map renderer. -/
inductive MarkerColor where
  | blue
  | red
  | green
deriving DecidableEq, Repr

/-- The table-selection state read back from the data editor
(src/app.py line 504): the values `selected_row.get("Address/Location")` and
`selected_row.get("WiFi Network (SSID)")`, each `none` when the key is
absent (a `.get` miss returns `None`, which never equals a cell value).
The whole state is wrapped in `Option` by the caller: `none` models the
falsy empty dictionary. -/
structure TableRowSel where
  address : Option String
  ssid : Option String
deriving DecidableEq, Repr

/-- The map-click coordinate test of the marker loop (src/app.py
lines 512-518): exact equality on both coordinates. -/
def matches_sel (r : Record) : Option LatLon → Bool
  | some s => decide (r.latitude = s.lat ∧ r.longitude = s.lon)
  | none => false

/-- The table-row test of the marker loop (src/app.py lines 521-524):
`selected_row` is truthy and both fetched values equal the row's cells. -/
def matches_table (r : Record) : Option TableRowSel → Bool
  | some t => decide (t.address = some r.location ∧ t.ssid = some r.ssid)
  | none => false

/-- The marker colour decision (src/app.py lines 507-525): the colour starts
blue; when a map-click selection exists in session state, the inner `if`
turns a coordinate-matching row red; the table-row `elif` belongs to the
outer membership test, so it is reached only when no map-click selection
exists at all. -/
def marker_color (selected_hotspot : Option LatLon)
    (selected_row : Option TableRowSel) (r : Record) : MarkerColor :=
  match selected_hotspot with
  | some s => if matches_sel r (some s) then .red else .blue
  | none => if matches_table r selected_row then .green else .blue

/-- The marker colour policy as the specification words it: per-record
first-match-wins priority — a record matching the map-click selection is
red, else a record matching the table selection is green, else blue. -/
def marker_color_spec (selected_hotspot : Option LatLon)
    (selected_row : Option TableRowSel) (r : Record) : MarkerColor :=
  if matches_sel r selected_hotspot then .red
  else if matches_table r selected_row then .green
  else .blue

/-- C6 fails on the code: when a map-click selection exists, a record that
does not match its coordinates but does match the table-selected row is
coloured blue, where the claimed per-record priority would colour it
green. -/
theorem marker_color_counterexample :
    marker_color (some ⟨0, 0⟩)
        (some ⟨some sampleRecord.location, some sampleRecord.ssid⟩)
        sampleRecord
      = .blue
    ∧ marker_color_spec (some ⟨0, 0⟩)
        (some ⟨some sampleRecord.location, some sampleRecord.ssid⟩)
        sampleRecord
      = .green := by
  constructor
  · decide
  · decide

/-- C6 amended: when a map-click selection exists, a coordinate-matching
record is red and every other record is blue — the table rule is never
consulted, so no record is green (in particular a record matching both
selections is red, per the map-click rule).  Only when no map-click
selection exists does a table-matching record become green, all others
blue. -/
theorem marker_color_cases (sel : LatLon) (tbl : Option TableRowSel)
    (r : Record) :
    (matches_sel r (some sel) = true → marker_color (some sel) tbl r = .red)
    ∧ (matches_sel r (some sel) = false → marker_color (some sel) tbl r = .blue)
    ∧ marker_color (some sel) tbl r ≠ .green
    ∧ (matches_sel r (some sel) = true → matches_table r tbl = true →
        marker_color (some sel) tbl r = .red)
    ∧ marker_color none tbl r
        = (if matches_table r tbl then .green else .blue) := by
  refine ⟨?_, ?_, ?_, ?_, rfl⟩
  · intro h
    simp [marker_color, h]
  · intro h
    simp [marker_color, h]
  · rcases h : matches_sel r (some sel) with _ | _ <;> simp [marker_color, h]
  · intro h _
    simp [marker_color, h]

/-- The C6 amended theorem applied to a record matching both the map-click
selection and the table selection: the map-click rule wins. -/
theorem marker_color_cases_witness :
    marker_color (some ⟨40, -74⟩)
        (some ⟨some sampleRecord.location, some sampleRecord.ssid⟩)
        sampleRecord
      = .red :=
  (marker_color_cases ⟨40, -74⟩
      (some ⟨some sampleRecord.location, some sampleRecord.ssid⟩)
      sampleRecord).2.2.2.1 (by decide) (by decide)

/-- The session-state keys the app mutates (src/app.py): the search box
value, the clear flag, the map-click selection, the directions flag (an
`Option` since the key is deleted by some actions), the location-sharing
flag, the user location, the location-request flag, the cached random
sample, and the refresh flag. -/
structure SessionState where
  search_key : String
  clear_search : Bool
  selected_hotspot : Option LatLon
  show_directions : Option Bool
  location_shared : Bool
  user_location : Option LatLon
  location_requested : Bool
  hotspot_sample : Option (List Record)
  refresh_clicked : Bool
deriving DecidableEq, Repr

/-- The clear button handler (src/app.py lines 247-256): empties the search
box, sets the clear flag, and deletes the map-click selection and the
directions flag. -/
def clear_button (s : SessionState) : SessionState :=
  { s with
    search_key := ""
    clear_search := true
    selected_hotspot := none
    show_directions := none }

/-- The refresh button handler (src/app.py lines 327-336): stores a fresh
200-row sample (passed in here, drawn randomly in the source), sets the
refresh flag, and deletes the map-click selection and the directions
flag. -/
def refresh_button (sample : List Record) (s : SessionState) : SessionState :=
  { s with
    hotspot_sample := some sample
    refresh_clicked := true
    selected_hotspot := none
    show_directions := none }

/-- The location button handler (src/app.py lines 352-366): toggles the
sharing flag; when the toggle turns sharing off it deletes the user
location, the location-request flag and the directions flag — and nothing
else. -/
def location_button (s : SessionState) : SessionState :=
  if !s.location_shared then
    { s with location_shared := true }
  else
    { s with
      location_shared := false
      user_location := none
      location_requested := false
      show_directions := none }

/-- The directions button handler (src/app.py lines 368-391): flips the
directions flag (initialised to `False` at line 370 when absent). -/
def directions_button (s : SessionState) : SessionState :=
  { s with show_directions := some (!(s.show_directions.getD false)) }

/-- The map-click handler (src/app.py lines 579-597): a click stores the
clicked coordinates as the selection when there is no current selection or
the click lies more than 0.0001 degrees away from it on either axis. -/
def map_click (clicked : LatLon) (s : SessionState) : SessionState :=
  match s.selected_hotspot with
  | none => { s with selected_hotspot := some clicked }
  | some cur =>
      if |cur.lat - clicked.lat| > 1 / 10000 ∨ |cur.lon - clicked.lon| > 1 / 10000 then
        { s with selected_hotspot := some clicked }
      else
        s

/-- A concrete session state with location sharing on and a map-click
selection present. -/
def sharedState : SessionState :=
  { search_key := ""
    clear_search := false
    selected_hotspot := some ⟨40, -74⟩
    show_directions := some true
    location_shared := true
    user_location := some ⟨40, -73⟩
    location_requested := false
    hotspot_sample := none
    refresh_clicked := false }

/-- C7 fails on the code: switching location sharing off deletes the user
location and the directions flag but leaves the map-click selection in
session state. -/
theorem location_off_counterexample :
    (location_button sharedState).location_shared = false
    ∧ (location_button sharedState).user_location = none
    ∧ (location_button sharedState).selected_hotspot = some ⟨40, -74⟩ := by
  refine ⟨?_, ?_, ?_⟩
  · decide
  · decide
  · decide

/-- C7 amended: the map-click selection is cleared by exactly the explicit
clear action and the refresh action; the location toggle and the directions
toggle leave it unchanged (in either direction of the toggle), and a map
click always leaves a selection present. -/
theorem selection_clearing (s : SessionState) (sample : List Record)
    (clicked : LatLon) :
    (clear_button s).selected_hotspot = none
    ∧ (refresh_button sample s).selected_hotspot = none
    ∧ (location_button s).selected_hotspot = s.selected_hotspot
    ∧ (directions_button s).selected_hotspot = s.selected_hotspot
    ∧ (map_click clicked s).selected_hotspot.isSome = true := by
  refine ⟨rfl, rfl, ?_, rfl, ?_⟩
  · rw [location_button]
    rcases s.location_shared with _ | _ <;> simp
  · rcases h : s.selected_hotspot with _ | cur
    · simp [map_click, h]
    · simp only [map_click, h]
      split
      · rfl
      · rw [h]
        rfl

/-- The fixed borough code-to-name table (src/app.py lines 613-619); the
`Series.map` of pandas yields NaN (`none`) for a code outside the table. -/
def borough_code_to_name : Int → Option String
  | 1 => some "Manhattan"
  | 2 => some "Bronx"
  | 3 => some "Brooklyn"
  | 4 => some "Queens"
  | 5 => some "Staten Island"
  | _ => none

/-- The `BoroCode` column of the record set as `value_counts` sees it:
`Series.value_counts` skips NaN cells, so only the present codes remain. -/
def boro_codes (rs : List Record) : List Int :=
  rs.filterMap (fun r => r.boroCode)

/-- `df["BoroCode"].value_counts()` (src/app.py line 609): one `(code,
occurrence count)` pair per distinct present code.  The source additionally
orders the pairs by descending count; no claim depends on that order and it
is not modelled. -/
def value_counts (codes : List Int) : List (Int × Nat) :=
  codes.dedup.map (fun c => (c, codes.count c))

/-- `borough_summary` (src/app.py lines 609-625): the counted codes joined
with the name table, as `(code, name, count)` rows. -/
def borough_summary (rs : List Record) : List (Int × Option String × Nat) :=
  (value_counts (boro_codes rs)).map
    (fun p => (p.1, borough_code_to_name p.1, p.2))

/-- A record whose `BoroCode` cell is missing. -/
def noCodeRecord : Record := { sampleRecord with boroCode := none }

/-- C8 fails on the code: `value_counts` skips rows whose `BoroCode` cell is
missing, so on a one-record set with a missing code the summary is empty and
the counts sum to 0, not to the total record count 1. -/
theorem borough_sum_counterexample :
    borough_summary [noCodeRecord] = []
    ∧ ((borough_summary [noCodeRecord]).map (fun t => t.2.2)).sum = 0
    ∧ [noCodeRecord].length = 1 := by
  refine ⟨?_, ?_, rfl⟩
  · decide
  · decide

/-- Auxiliary: the number of present `BoroCode` cells. -/
theorem length_boro_codes (rs : List Record) :
    (boro_codes rs).length = rs.countP (fun r => r.boroCode.isSome) := by
  induction rs with
  | nil => rfl
  | cons a t ih =>
      cases h : a.boroCode <;>
        simp [boro_codes, List.filterMap_cons, h, List.countP_cons, ih] <;>
        simp [boro_codes] at ih <;> omega

/-- C8 amended: the summary groups the *present* borough codes, counts every
occurrence of each (an unmapped code is still counted, with a null name),
maps codes to names by the fixed five-entry table, and its counts sum to the
number of records with a present borough code — which is the total record
count only when no `BoroCode` cell is missing. -/
theorem borough_summary_spec (rs : List Record) (code : Int) :
    ((borough_summary rs).map (fun t => t.2.2)).sum
        = rs.countP (fun r => r.boroCode.isSome)
    ∧ ((code, borough_code_to_name code, (boro_codes rs).count code)
          ∈ borough_summary rs ↔ code ∈ boro_codes rs)
    ∧ borough_code_to_name 1 = some "Manhattan"
    ∧ borough_code_to_name 2 = some "Bronx"
    ∧ borough_code_to_name 3 = some "Brooklyn"
    ∧ borough_code_to_name 4 = some "Queens"
    ∧ borough_code_to_name 5 = some "Staten Island"
    ∧ (borough_code_to_name code = none ↔ code < 1 ∨ 5 < code) := by
  refine ⟨?_, ?_, rfl, rfl, rfl, rfl, rfl, ?_⟩
  · have hmaps : ((borough_summary rs).map (fun t => t.2.2))
        = (boro_codes rs).dedup.map (fun c => (boro_codes rs).count c) := by
      simp [borough_summary, value_counts, List.map_map]
    rw [hmaps, List.sum_map_count_dedup_eq_length, length_boro_codes]
  · simp only [borough_summary, value_counts, List.map_map, List.mem_map,
      List.mem_dedup, Function.comp, Prod.mk.injEq]
    constructor
    · rintro ⟨a, ha, rfl, -, -⟩
      exact ha
    · intro h
      exact ⟨code, h, rfl, rfl, rfl⟩
  · constructor
    · intro h
      by_contra hc
      push_neg at hc
      obtain ⟨h1, h2⟩ := hc
      interval_cases code <;> simp [borough_code_to_name] at h
    · intro h
      unfold borough_code_to_name
      split <;> first | rfl | omega

/-- Lexicographic comparison of character sequences, the order Python and
pandas use to compare the postcode strings. -/
def charle : List Char → List Char → Bool
  | [], _ => true
  | _ :: _, [] => false
  | c :: cs, d :: ds => if c = d then charle cs ds else decide (c < d)

/-- The sort key relation of `df.sort_values("Postcode", ascending=True)`
(src/app.py line 136): postcode string less-or-equal. -/
def postcode_le (a b : Record) : Prop :=
  charle a.postcode.toList b.postcode.toList = true

instance : DecidableRel postcode_le :=
  fun _ _ => inferInstanceAs (Decidable (_ = true))

/-- The contract of the load-time sort
`df.sort_values("Postcode", ascending=True)` (src/app.py line 136) with the
default `kind="quicksort"`: the result is some permutation of the rows that
is ordered ascending by postcode.  Quicksort is not a stable algorithm, so
pandas gives no guarantee on the relative order of rows sharing a postcode:
any sorted permutation is an admissible result, and the sort is modelled by
this admissibility predicate rather than by one fixed algorithm. -/
def sort_values_admissible (input out : List Record) : Prop :=
  out.Perm input ∧ List.Sorted postcode_le out

/-- A record sharing `sampleRecord`'s postcode but differing elsewhere. -/
def tieRecord : Record := { sampleRecordB with postcode := "10001" }

/-- The filter never reorders: its output is a sublist of its input. -/
theorem filtered_df_sublist (rs : List Record) (q : String)
    (sel : Option LatLon) (col : SearchColumn) :
    (filtered_df rs q sel col).Sublist rs := by
  by_cases hq : q = ""
  · subst hq
    cases sel with
    | none => simp [filtered_df]
    | some s => simp [filtered_df]
  · cases col with
    | all => simp [filtered_df, hq]
    | col c => simp [filtered_df, hq]

/-- The three-record end-to-end example rows, postcodes out of order. -/
def rec10002 : Record := { sampleRecordB with postcode := "10002" }

/-- Second example row. -/
def rec10001 : Record := { sampleRecord with postcode := "10001" }

/-- Third example row. -/
def rec10003 : Record :=
  { sampleRecord with postcode := "10003", name := "mn-09-100003" }

/-- C9 fails on the code: the load-time sort is `sort_values` with the
default quicksort, which does not guarantee tie order.  On a two-record set
sharing the postcode "10001", the reversed order is an admissible sort
result, and on it the rows with that postcode do not keep their input
order — so the sort is not a stable sort. -/
theorem sort_stability_counterexample :
    sort_values_admissible [sampleRecord, tieRecord] [tieRecord, sampleRecord]
    ∧ [tieRecord, sampleRecord].filter (fun r => r.postcode == "10001")
        ≠ [sampleRecord, tieRecord].filter (fun r => r.postcode == "10001") := by
  refine ⟨⟨List.Perm.swap sampleRecord tieRecord [], ?_⟩, ?_⟩
  · decide
  · decide

/-- C9 amended: every admissible result of the load-time sort is a
permutation of the record set ordered ascending by postcode (with no
guarantee on the order of rows sharing a postcode); the filter preserves
its input order with no ranking (its output is always a sublist of its
input); and on the three-record example with distinct postcodes every
admissible post-load order is ascending by postcode and the "10002"
postcode query returns exactly the middle record. -/
theorem load_sort_and_filter_order (rs out exout : List Record)
    (h : sort_values_admissible rs out)
    (hex : sort_values_admissible [rec10002, rec10001, rec10003] exout) :
    List.Sorted postcode_le out
    ∧ out.Perm rs
    ∧ (∀ (rs2 : List Record) (q2 : String) (sel2 : Option LatLon)
        (col2 : SearchColumn), (filtered_df rs2 q2 sel2 col2).Sublist rs2)
    ∧ List.Sorted postcode_le exout
    ∧ filtered_df exout "10002" none (.col .postcode) = [rec10002] := by
  refine ⟨h.2, h.1, filtered_df_sublist, hex.2, ?_⟩
  have h5 : filtered_df exout "10002" none (.col .postcode)
      = exout.filter (fun r => str_contains (Column.postcode.get r) "10002") := by
    simp [filtered_df]
  have hp := (hex.1).filter
    (fun r => str_contains (Column.postcode.get r) "10002")
  have hconc : ([rec10002, rec10001, rec10003] : List Record).filter
      (fun r => str_contains (Column.postcode.get r) "10002") = [rec10002] := by
    decide
  rw [h5]
  rw [hconc] at hp
  exact List.perm_singleton.mp hp

/-- The C9 amended theorem applied at concrete admissible sort results. -/
theorem load_sort_and_filter_order_witness :
    List.Sorted postcode_le [rec10001, rec10002, rec10003]
    ∧ filtered_df [rec10001, rec10002, rec10003] "10002" none (.col .postcode)
        = [rec10002] := by
  have h := load_sort_and_filter_order [rec10001] [rec10001]
    [rec10001, rec10002, rec10003]
    ⟨List.Perm.refl _, by decide⟩
    ⟨List.Perm.swap rec10002 rec10001 [rec10003], by decide⟩
  exact ⟨h.2.2.2.1, h.2.2.2.2⟩

/-- The error message of `DataFrame.sample` when the requested size exceeds
the population and `replace` is off. -/
def sample_error : String :=
  "Cannot take a larger sample than population when replace is False"

/-- The size contract of `df.sample(n=...)`: a ValueError when the record
set holds fewer than `n` rows, otherwise `n` rows of the set.  Which rows
are drawn is pseudorandom in the source (seed 42 at the first display,
unseeded on refresh) and is modelled as the first `n` rows; the claims
depend only on the error condition and the output size. -/
def pandas_sample (n : Nat) (rs : List Record) : Except String (List Record) :=
  if n ≤ rs.length then .ok (rs.take n) else .error sample_error

/-- `df.sample(n=200, random_state=42)`, the first-display sample
(src/app.py line 497). -/
def first_display_sample (df : List Record) : Except String (List Record) :=
  pandas_sample 200 df

/-- `df.sample(n=200)`, the refresh sample (src/app.py line 328). -/
def refresh_sample (df : List Record) : Except String (List Record) :=
  pandas_sample 200 df

/-- C10: on a record set of fewer than 200 rows both sampling calls raise
(no smaller sample is returned); on a set of at least 200 rows both return a
sample of exactly 200 records. -/
theorem sample_size (df : List Record) :
    (df.length < 200 →
      first_display_sample df = .error sample_error
      ∧ refresh_sample df = .error sample_error)
    ∧ (200 ≤ df.length →
      ∃ l, first_display_sample df = .ok l ∧ refresh_sample df = .ok l
        ∧ l.length = 200) := by
  constructor
  · intro h
    have hn : ¬ 200 ≤ df.length := by omega
    constructor <;>
      simp [first_display_sample, refresh_sample, pandas_sample, hn]
  · intro h
    refine ⟨df.take 200, ?_, ?_, ?_⟩
    · simp [first_display_sample, pandas_sample, h]
    · simp [refresh_sample, pandas_sample, h]
    · simp [List.length_take]
      omega

/-- The C10 theorem applied at a 199-row set (error) and a 300-row set
(200-row sample). -/
theorem sample_size_witness :
    first_display_sample (List.replicate 199 sampleRecord) = .error sample_error
    ∧ ∃ l, first_display_sample (List.replicate 300 sampleRecord) = .ok l
        ∧ l.length = 200 := by
  constructor
  · exact ((sample_size (List.replicate 199 sampleRecord)).1
      (by rw [List.length_replicate]; omega)).1
  · obtain ⟨l, h1, _, h3⟩ := (sample_size (List.replicate 300 sampleRecord)).2
      (by rw [List.length_replicate]; omega)
    exact ⟨l, h1, h3⟩

end NycWifi
